import Mathlib

/-!
Shallow embedding of the themed-text layout engine (`ImageText` in
enthought/traits/ui/wx/image_text.py), the read-only editor's
hover/press state machine (`ReadonlyTextEditor` in
enthought/traits/ui/wx/text_editor.py), the per-form error counter of
`SimpleEditor`, and the `_get_user_value` coercion pipeline.

The source is Python 2 (old-style except syntax, `wx.PyWindow`), so the
`/` operator on integers is floor division (rounding toward negative
infinity); it is embedded as `Int.fdiv`.
-/

/-- The eight margins of the 9-region image slice: outer margins
`left/right/top/bottom` and inner margins `xleft/xright/xtop/xbottom`. -/
structure ImageSlice where
  left : Int
  right : Int
  top : Int
  bottom : Int
  xleft : Int
  xright : Int
  xtop : Int
  xbottom : Int
deriving DecidableEq

/-- The content padding box of a theme (`theme.content`). -/
structure ContentMargins where
  left : Int
  right : Int
  top : Int
  bottom : Int
deriving DecidableEq

/-- The label offset of a theme (`theme.label`). -/
structure LabelOffset where
  left : Int
  top : Int
deriving DecidableEq

/-- The text alignment of a theme (`theme.alignment`). -/
inductive ThemeAlignment where
  | left
  | center
  | right
deriving DecidableEq

/-- A theme, as consumed by `ImageText`: the image slice, the content
padding, the label offset and the alignment. -/
structure Theme where
  image_slice : ImageSlice
  content : ContentMargins
  label : LabelOffset
  alignment : ThemeAlignment
deriving DecidableEq

/-- The result of `GetFullTextExtent`: `(width, height, descent, leading)`. -/
structure TextSize where
  width : Int
  height : Int
  descent : Int
  leading : Int
deriving DecidableEq

/-- `ImageText.GetMinSize`: minimum size of the window, from the theme and
the measured text size. -/
def GetMinSize (theme : Theme) (ts : TextSize) : Int × Int :=
  let content := theme.content
  let tdx := ts.width + (content.left + content.right)
  let tdy := ts.height + (content.top + content.bottom)
  let slice := theme.image_slice
  (max (slice.left + slice.right) (slice.xleft + slice.xright + tdx + 8),
   max (slice.top + slice.bottom) (slice.xtop + slice.xbottom + tdy + 4))

/-- `ImageText._get_text_bounds`: window bounds `(tx, ty, tdx, tdy)` of where
the current text should be displayed, from the theme, the measured text size
and the client size `(wdx, wdy)`.  Python 2 integer `/` is `Int.fdiv`. -/
def _get_text_bounds (theme : Theme) (ts : TextSize) (wdx wdy : Int) :
    Int × Int × Int × Int :=
  let tdx := ts.width
  let tdy := ts.height
  let slice := theme.image_slice
  let content := theme.content
  let ty := Int.fdiv (wdy + slice.xtop + content.top - slice.xtop -
    slice.xbottom - tdy) 2
  let tx := match theme.alignment with
    | ThemeAlignment.left => slice.xleft + content.left
    | ThemeAlignment.center =>
        let adx := wdx - slice.xleft - slice.xright
        slice.xleft + content.left + 4 + Int.fdiv (adx - tdx) 2
    | ThemeAlignment.right => wdx - tdx - slice.xright - content.right
  (tx + theme.label.left, ty + theme.label.top, tdx, tdy)

/-- The characters stripped by Python 2 `str.strip()` with no argument. -/
def isPySpace (c : Char) : Bool :=
  c == ' ' || c == '\t' || c == '\n' || c == '\r' ||
    c == Char.ofNat 11 || c == Char.ofNat 12

/-- Python 2 `text.strip()`: remove leading and trailing whitespace. -/
def pyStrip (s : String) : String :=
  String.mk (((s.toList.dropWhile isPySpace).reverse.dropWhile
    isPySpace).reverse)

/-- `ImageText._get_text_size`: the measured size of the label, where an
empty or whitespace-only label is measured as the single character M.
`measure` stands for `GetFullTextExtent` for the current font. -/
def _get_text_size (measure : String → TextSize) (text : String) : TextSize :=
  measure (if pyStrip text = "" then "M" else text)

/-- The background color chosen by `ReadonlyTextEditor._set_color`:
the parent's current background color, the hover color (`wx.LIGHT_GREY`)
or the down color (`wx.WHITE`). -/
inductive BgColor where
  | parent
  | hover
  | down
deriving DecidableEq

/-- The state of a `ReadonlyTextEditor` control that matters to the mouse
handlers: the `_in_window` and `_down` flags, whether the control currently
holds the mouse capture, the last background color set by `_set_color`
(`none` before the first call), and how many times `edit_traits` has been
called (the activate signal count). -/
structure ReadonlyState where
  in_window : Bool
  down : Bool
  captured : Bool
  color : Option BgColor
  activations : Nat
deriving DecidableEq

/-- Before any event, `_in_window` and `_down` are unset (falsy), no capture
is held, no background color has been set and no activation has fired. -/
def initialState : ReadonlyState :=
  { in_window := false, down := false, captured := false, color := none,
    activations := 0 }

/-- The color picked by `ReadonlyTextEditor._set_color` from the current
flags: not in window means the parent background, otherwise the down color
while pressed, and the hover color otherwise. -/
def setColorOf (s : ReadonlyState) : BgColor :=
  if !s.in_window then BgColor.parent
  else if s.down then BgColor.down
  else BgColor.hover

/-- `ReadonlyTextEditor._set_color`: set the control's background color from
the current flags. -/
def set_color (s : ReadonlyState) : ReadonlyState :=
  { s with color := some (setColorOf s) }

/-- The events for which `ReadonlyTextEditor.init` binds handlers
(`EVT_ENTER_WINDOW`, `EVT_LEAVE_WINDOW`, `EVT_LEFT_DOWN`, `EVT_LEFT_UP`),
plus a focus-loss event, for which `init` binds no handler at all. -/
inductive Event where
  | enter_window
  | leave_window
  | left_down
  | left_up
  | focus_lost
deriving DecidableEq

/-- One event dispatch of `ReadonlyTextEditor`.  `_enter_window` and
`_leave_window` set `_in_window` and recolor; `_left_down` captures the
mouse, sets `_down` and recolors; `_left_up` recolors first (with `_down`
still set), returns if no press is pending, and otherwise releases the
capture, clears `_down` and calls `edit_traits` if the pointer is still in
the window.  A focus-loss event has no bound handler and changes nothing. -/
def step (s : ReadonlyState) : Event → ReadonlyState
  | Event.enter_window => set_color { s with in_window := true }
  | Event.leave_window => set_color { s with in_window := false }
  | Event.left_down => set_color { s with captured := true, down := true }
  | Event.left_up =>
      let s1 := set_color s
      if s1.down then
        let s2 := { s1 with captured := false, down := false }
        if s2.in_window then { s2 with activations := s2.activations + 1 }
        else s2
      else s1
  | Event.focus_lost => s

/-- Dispatch a list of events in delivery order. -/
def run (s : ReadonlyState) : List Event → ReadonlyState
  | [] => s
  | e :: es => run (step s e) es

/-- `SimpleEditor.error` acting on the pair of this editor's `_error` flag
(`true` when `_error` is not `None`) and the shared `ui.errors` counter:
only a first error sets the flag and increments the counter. -/
def editor_error : Bool × Int → Bool × Int
  | (e, c) => if e then (e, c) else (true, c + 1)

/-- The error-clearing branch of `SimpleEditor.update_object` (also of
`update_editor`): when `_error` is not `None`, reset it and decrement the
shared `ui.errors` counter; otherwise leave both untouched. -/
def clear_error : Bool × Int → Bool × Int
  | (e, c) => if e then (false, c - 1) else (e, c)

/-- A form with two editors sharing one `ui.errors` counter:
`(editor 1 flag, editor 2 flag, shared counter)`. -/
abbrev FormState : Type := Bool × Bool × Int

/-- Editor 1 signals a validation error on the shared form. -/
def error1 : FormState → FormState
  | (e1, e2, c) =>
      let r := editor_error (e1, c)
      (r.1, e2, r.2)

/-- Editor 2 signals a validation error on the shared form. -/
def error2 : FormState → FormState
  | (e1, e2, c) =>
      let r := editor_error (e2, c)
      (e1, r.1, r.2)

/-- Editor 1 resolves (its update succeeds) on the shared form. -/
def clear1 : FormState → FormState
  | (e1, e2, c) =>
      let r := clear_error (e1, c)
      (r.1, e2, r.2)

/-- Editor 2 resolves (its update succeeds) on the shared form. -/
def clear2 : FormState → FormState
  | (e1, e2, c) =>
      let r := clear_error (e2, c)
      (e1, r.1, r.2)

/-- `SimpleEditor._get_user_value` over an abstract value type:
`evaluate` returns `none` when the evaluate callback raises (the failure is
logged and the raw value is kept), `hashable` tells whether `mapping.get`
raises `TypeError` on the value, and `lookup` is the mapping's successful
lookup.  The function is total: no exception propagates. -/
def _get_user_value {V : Type} (evaluate : V → Option V)
    (hashable : V → Bool) (lookup : V → Option V) (raw : V) : V :=
  let value := ((evaluate raw).getD raw)
  if hashable value then ((lookup value).getD value) else value

/-- The all-zero theme with center alignment, used by the worked example of
the spec. -/
def themeCenterZero : Theme :=
  { image_slice := ⟨0, 0, 0, 0, 0, 0, 0, 0⟩, content := ⟨0, 0, 0, 0⟩,
    label := ⟨0, 0⟩, alignment := ThemeAlignment.center }

/-- The all-zero theme with left alignment. -/
def themeLeftZero : Theme :=
  { image_slice := ⟨0, 0, 0, 0, 0, 0, 0, 0⟩, content := ⟨0, 0, 0, 0⟩,
    label := ⟨0, 0⟩, alignment := ThemeAlignment.left }

/-- C1: for every theme and measured text size, `GetMinSize` returns
width `max(slice.left+slice.right,
slice.xleft+slice.xright+textWidth+content.left+content.right+8)` and
height `max(slice.top+slice.bottom,
slice.xtop+slice.xbottom+textHeight+content.top+content.bottom+4)`, and the
result is componentwise at least
`(slice.left+slice.right, slice.top+slice.bottom)`. -/
theorem GetMinSize_spec (theme : Theme) (ts : TextSize) :
    GetMinSize theme ts =
      (max (theme.image_slice.left + theme.image_slice.right)
        (theme.image_slice.xleft + theme.image_slice.xright + ts.width +
          theme.content.left + theme.content.right + 8),
       max (theme.image_slice.top + theme.image_slice.bottom)
        (theme.image_slice.xtop + theme.image_slice.xbottom + ts.height +
          theme.content.top + theme.content.bottom + 4)) ∧
    theme.image_slice.left + theme.image_slice.right ≤
      (GetMinSize theme ts).1 ∧
    theme.image_slice.top + theme.image_slice.bottom ≤
      (GetMinSize theme ts).2 := by
  refine ⟨?_, le_max_left _ _, le_max_left _ _⟩
  simp only [GetMinSize]
  congr 2 <;> ring

/-- C2: for `alignment = center`, the x position returned by
`_get_text_bounds` is `slice.xleft + content.left + 4 +
(controlWidth - slice.xleft - slice.xright - textWidth) / 2` plus the final
`label.left` offset; in particular, for the all-zero center theme, text size
`(10, 4, 0, 0)` and control size `(30, 10)` the bounds are
`(14, 3, 10, 4)`. -/
theorem textBounds_center_spec :
    (∀ (theme : Theme) (ts : TextSize) (wdx wdy : Int),
      theme.alignment = ThemeAlignment.center →
      (_get_text_bounds theme ts wdx wdy).1 =
        theme.image_slice.xleft + theme.content.left + 4 +
          Int.fdiv (wdx - theme.image_slice.xleft -
            theme.image_slice.xright - ts.width) 2 +
          theme.label.left) ∧
    _get_text_bounds themeCenterZero ⟨10, 4, 0, 0⟩ 30 10 = (14, 3, 10, 4) := by
  constructor
  · intro theme ts wdx wdy h
    simp only [_get_text_bounds, h]
  · decide

/-- C2 witness: the center formula evaluated at the worked example. -/
theorem textBounds_center_spec_witness :
    (_get_text_bounds themeCenterZero ⟨10, 4, 0, 0⟩ 30 10).1 =
      themeCenterZero.image_slice.xleft + themeCenterZero.content.left + 4 +
        Int.fdiv (30 - themeCenterZero.image_slice.xleft -
          themeCenterZero.image_slice.xright - 10) 2 +
        themeCenterZero.label.left :=
  textBounds_center_spec.1 themeCenterZero ⟨10, 4, 0, 0⟩ 30 10 rfl

/-- The all-zero theme with right alignment. -/
def themeRightZero : Theme :=
  { image_slice := ⟨0, 0, 0, 0, 0, 0, 0, 0⟩, content := ⟨0, 0, 0, 0⟩,
    label := ⟨0, 0⟩, alignment := ThemeAlignment.right }

/-- C6 counterexample: with the all-zero theme, text height 4 and control
height 1, the code's vertical position is `(-3) / 2 = -2` under Python 2
floor division, while truncation toward zero would give `-1`: the claimed
truncating semantics does not match the code. -/
theorem textBounds_y_trunc_counterexample :
    (_get_text_bounds themeLeftZero ⟨0, 4, 0, 0⟩ 0 1).2.1 = -2 ∧
    Int.tdiv (1 + themeLeftZero.image_slice.xtop + themeLeftZero.content.top -
      themeLeftZero.image_slice.xtop - themeLeftZero.image_slice.xbottom - 4)
      2 = -1 ∧
    (_get_text_bounds themeLeftZero ⟨0, 4, 0, 0⟩ 0 1).2.1 ≠
      Int.tdiv (1 + themeLeftZero.image_slice.xtop +
        themeLeftZero.content.top - themeLeftZero.image_slice.xtop -
        themeLeftZero.image_slice.xbottom - 4) 2 := by
  decide

/-- C6 amended: for every theme, text size and control size, the vertical
position returned by `_get_text_bounds` is
`(controlHeight + slice.xtop + content.top - slice.xtop - slice.xbottom -
textHeight) / 2` with integer division flooring toward negative infinity
(Python 2 `/`), plus the final `label.top` offset. -/
theorem textBounds_y_floor (theme : Theme) (ts : TextSize) (wdx wdy : Int) :
    (_get_text_bounds theme ts wdx wdy).2.1 =
      Int.fdiv (wdy + theme.image_slice.xtop + theme.content.top -
        theme.image_slice.xtop - theme.image_slice.xbottom - ts.height) 2 +
      theme.label.top :=
  rfl

/-- C7: for left alignment the x position of `_get_text_bounds` does not
depend on the control width, and for right alignment it strictly decreases
when the text width increases, all other inputs held fixed. -/
theorem textBounds_left_const_right_strict_mono :
    (∀ (theme : Theme) (ts : TextSize) (wdx wdx' wdy : Int),
      theme.alignment = ThemeAlignment.left →
      (_get_text_bounds theme ts wdx wdy).1 =
        (_get_text_bounds theme ts wdx' wdy).1) ∧
    (∀ (theme : Theme) (ts : TextSize) (w w' wdx wdy : Int),
      theme.alignment = ThemeAlignment.right → w < w' →
      (_get_text_bounds theme { ts with width := w' } wdx wdy).1 <
        (_get_text_bounds theme { ts with width := w } wdx wdy).1) := by
  constructor
  · intro theme ts wdx wdx' wdy h
    simp only [_get_text_bounds, h]
  · intro theme ts w w' wdx wdy h hw
    simp only [_get_text_bounds, h]
    omega

/-- C7 witness: left-aligned x agrees for control widths 5 and 7, and
right-aligned x drops when the text width grows from 1 to 2. -/
theorem textBounds_left_const_right_strict_mono_witness :
    (_get_text_bounds themeLeftZero ⟨3, 2, 0, 0⟩ 5 9).1 =
      (_get_text_bounds themeLeftZero ⟨3, 2, 0, 0⟩ 7 9).1 ∧
    (_get_text_bounds themeRightZero ⟨2, 2, 0, 0⟩ 5 9).1 <
      (_get_text_bounds themeRightZero ⟨1, 2, 0, 0⟩ 5 9).1 := by
  constructor
  · exact textBounds_left_const_right_strict_mono.1 themeLeftZero
      ⟨3, 2, 0, 0⟩ 5 7 9 rfl
  · exact textBounds_left_const_right_strict_mono.2 themeRightZero
      ⟨1, 2, 0, 0⟩ 1 2 5 9 rfl (by decide)

/-- C8: a display string whose Python `strip()` is empty is measured as the
single character M, so `_get_text_size`, `_get_text_bounds` and
`GetMinSize` agree exactly with those of the literal text M for the same
measuring font, theme and control size. -/
theorem whitespace_text_same_layout (measure : String → TextSize)
    (text : String) (h : pyStrip text = "") :
    _get_text_size measure text = _get_text_size measure "M" ∧
    (∀ (theme : Theme) (wdx wdy : Int),
      _get_text_bounds theme (_get_text_size measure text) wdx wdy =
        _get_text_bounds theme (_get_text_size measure "M") wdx wdy) ∧
    (∀ theme : Theme,
      GetMinSize theme (_get_text_size measure text) =
        GetMinSize theme (_get_text_size measure "M")) := by
  have hsize : _get_text_size measure text = _get_text_size measure "M" := by
    simp only [_get_text_size, h, ite_self, if_pos]
  exact ⟨hsize, fun theme wdx wdy => by rw [hsize], fun theme => by rw [hsize]⟩

/-- C8 witness: a one-space label measures and lays out exactly like M under
a concrete length-based measuring function. -/
theorem whitespace_text_same_layout_witness :
    _get_text_size (fun s => ⟨Int.ofNat s.length, 1, 0, 0⟩) " " =
      _get_text_size (fun s => ⟨Int.ofNat s.length, 1, 0, 0⟩) "M" :=
  (whitespace_text_same_layout (fun s => ⟨Int.ofNat s.length, 1, 0, 0⟩) " "
    (by decide)).1

/-- C3 counterexample: after [pointer-enter, button-down, button-up] from
the initial state, the background color last set is the down color
(`wx.WHITE`), not the hover color, because `_left_up` calls `_set_color`
before clearing `_down`. -/
theorem enter_down_up_color_not_hover :
    (run initialState
      [Event.enter_window, Event.left_down, Event.left_up]).color ≠
        some BgColor.hover ∧
    (run initialState
      [Event.enter_window, Event.left_down, Event.left_up]).color =
        some BgColor.down := by
  decide

/-- C3 amended: from the initial state, [enter, down, leave, up] ends with
the parent (idle) background color and fires no activate signal, while
[enter, down, up] ends with the down background color (the pressed color,
since `_left_up` recolors before clearing `_down`) and fires exactly one
activate signal. -/
theorem stateColor_event_sequences :
    (run initialState [Event.enter_window, Event.left_down,
      Event.leave_window, Event.left_up]).color = some BgColor.parent ∧
    (run initialState [Event.enter_window, Event.left_down,
      Event.leave_window, Event.left_up]).activations = 0 ∧
    (run initialState [Event.enter_window, Event.left_down,
      Event.left_up]).color = some BgColor.down ∧
    (run initialState [Event.enter_window, Event.left_down,
      Event.left_up]).activations = 1 := by
  decide

/-- C9: the capture acquired by button-down is released by the following
button-up even when the pointer has left the control, but after the
interrupted sequence [enter, down, focus-loss] the capture is still held:
no handler is bound for focus-loss, so no defensive release happens. -/
theorem capture_dangling_after_focus_loss :
    (run initialState [Event.enter_window, Event.left_down,
      Event.leave_window, Event.left_up]).captured = false ∧
    (run initialState [Event.enter_window, Event.left_down,
      Event.focus_lost]).captured = true := by
  decide

/-- Any event other than button-down keeps `_down` false and the activation
count unchanged when no press is pending. -/
lemma step_no_press_preserved (s : ReadonlyState) (e : Event)
    (h1 : s.down = false) (h2 : e ≠ Event.left_down) :
    (step s e).down = false ∧ (step s e).activations = s.activations := by
  cases e <;> simp_all [step, set_color]

/-- A run containing no button-down event keeps `_down` false and the
activation count unchanged. -/
lemma run_no_left_down (evs : List Event) (s : ReadonlyState)
    (h : Event.left_down ∉ evs) (h1 : s.down = false) :
    (run s evs).down = false ∧ (run s evs).activations = s.activations := by
  induction evs generalizing s with
  | nil => exact ⟨h1, rfl⟩
  | cons e es ih =>
      have he : e ≠ Event.left_down := fun hc => h (hc ▸ List.mem_cons_self e es)
      have hes : Event.left_down ∉ es := fun hm => h (List.mem_cons_of_mem e hm)
      have hstep := step_no_press_preserved s e h1 he
      have hrun := ih (step s e) hes hstep.1
      exact ⟨hrun.1, hrun.2.trans hstep.2⟩

/-- C10: a button-up with no press pending only recomputes the background
color (leaving capture, the `_down` flag and the activation count as they
were); the activation count only ever changes on a button-up with a press
pending; and a run from the initial state without any button-down fires no
activate signal. -/
theorem left_up_without_press :
    (∀ s : ReadonlyState, s.down = false →
      step s Event.left_up = { s with color := some (setColorOf s) }) ∧
    (∀ (s : ReadonlyState) (e : Event),
      (step s e).activations ≠ s.activations →
      e = Event.left_up ∧ s.down = true) ∧
    (∀ evs : List Event, Event.left_down ∉ evs →
      (run initialState evs).activations = 0) := by
  refine ⟨?_, ?_, ?_⟩
  · intro s h
    simp [step, set_color, h]
  · intro s e h
    cases e <;> simp_all [step, set_color]
    by_contra hd
    simp [eq_false_of_ne_true hd] at h
  · intro evs h
    exact (run_no_left_down evs initialState h rfl).2

/-- C10 witness: a bare button-up from the initial state only sets the idle
color, and the run [enter, up] fires no activate signal. -/
theorem left_up_without_press_witness :
    step initialState Event.left_up =
      { initialState with color := some BgColor.parent } ∧
    (run initialState [Event.enter_window, Event.left_up]).activations = 0 := by
  constructor
  · exact left_up_without_press.1 initialState rfl
  · exact left_up_without_press.2.2 [Event.enter_window, Event.left_up]
      (by decide)

/-- C4: an error signal increments the shared counter only when the editor
is not already in the error state; clearing decrements exactly once and
only when an error was set; two editors each signaling then resolving take
the shared counter to 2 and back to 0 with both flags clear. -/
theorem error_counter_protocol :
    (∀ c : Int, editor_error (true, c) = (true, c)) ∧
    (∀ c : Int, editor_error (editor_error (false, c)) = (true, c + 1)) ∧
    (∀ c : Int, clear_error (true, c) = (false, c - 1)) ∧
    (∀ c : Int, clear_error (false, c) = (false, c)) ∧
    (error2 (error1 (false, false, 0))).2.2 = 2 ∧
    clear2 (clear1 (error2 (error1 (false, false, 0)))) = (false, false, 0) := by
  refine ⟨fun c => rfl, fun c => rfl, fun c => rfl, fun c => rfl, ?_, ?_⟩ <;>
    decide

/-- C5: `_get_user_value` returns the mapping lookup of the evaluated value
with the evaluated value as default; when the evaluate callback raises, the
raw value takes its place and the pipeline continues; when the evaluated
value is unhashable, the lookup is skipped and the evaluated value is
returned directly. -/
theorem get_user_value_spec {V : Type} (evaluate : V → Option V)
    (hashable : V → Bool) (lookup : V → Option V) (raw v : V) :
    (evaluate raw = some v → hashable v = true →
      _get_user_value evaluate hashable lookup raw = (lookup v).getD v) ∧
    (evaluate raw = none →
      _get_user_value evaluate hashable lookup raw =
        if hashable raw then (lookup raw).getD raw else raw) ∧
    (evaluate raw = some v → hashable v = false →
      _get_user_value evaluate hashable lookup raw = v) := by
  refine ⟨?_, ?_, ?_⟩ <;> intro h1 <;>
    simp [_get_user_value, h1] <;> intro h2 <;> simp [h2]

/-- C5 witness: the three branches exercised on concrete integer data. -/
theorem get_user_value_spec_witness :
    _get_user_value (fun n : Int => if n = 0 then none else some (n + 1))
      (fun n => decide (n ≠ 5)) (fun n => if n = 3 then some 99 else none)
      2 = 99 :=
  (get_user_value_spec (fun n : Int => if n = 0 then none else some (n + 1))
    (fun n => decide (n ≠ 5)) (fun n => if n = 3 then some 99 else none)
    2 3).1 (by decide) (by decide)
